import Mathlib

/-!
Verification of `cloneobj.py` (schmooser/oracle-scripts), a tool cloning a
single table between two Oracle databases.  The development below is a shallow
embedding of the script: strings are `List Char`, Python's `str.replace` and
the regex substitution `re.sub('TABLESPACE ".*"', repl, ddl)` are modelled as
executable scanners over character lists, mutable objects (`Connection`,
`DBObject`, `Cloner`) become records with explicit state passing, and the data
transfer loop of `Cloner.clone` becomes a pure function producing the sequence
of bulk-insert submissions.
-/

namespace CloneObj

/-- Lower-case a character list, modelling Python's `str.lower()` on the
ASCII identifiers used by the script. -/
def lower (l : List Char) : List Char := l.map Char.toLower

/-- Upper-case a character list, modelling Python's `str.upper()` on the
ASCII identifiers used by the script. -/
def upper (l : List Char) : List Char := l.map Char.toUpper

/-- `hasPrefB pat l` is `true` iff `pat` is a literal prefix of `l`. -/
def hasPrefB : List Char → List Char → Bool
  | [], _ => true
  | _ :: _, [] => false
  | p :: ps, c :: cs => if p = c then hasPrefB ps cs else false

/-- Number of positions of `l` at which the (non-empty) pattern `pat`
occurs as a substring. -/
def countOcc (pat l : List Char) : Nat :=
  ((List.range l.length).filter (fun i => hasPrefB pat (l.drop i))).length

theorem hasPrefB_append (p r : List Char) : hasPrefB p (p ++ r) = true := by
  induction p with
  | nil => rfl
  | cons c cs ih => simp [hasPrefB, ih]

/--
Model of Python's `str.replace(pat, rep)` (replace every non-overlapping
occurrence, scanning left to right), as used in `Connection.ddl_target`
(cloneobj.py line 84).  The auxiliary skip counter consumes the matched
characters after a replacement so that the recursion stays structural on the
scanned list.  The script only ever calls it with a non-empty pattern
(the pattern starts with a space character).
-/
def pyRepAux (pat rep : List Char) : List Char → Nat → List Char
  | [], _ => []
  | _ :: rest, k + 1 => pyRepAux pat rep rest k
  | c :: rest, 0 =>
    if hasPrefB pat (c :: rest) = true then
      rep ++ pyRepAux pat rep rest (pat.length - 1)
    else
      c :: pyRepAux pat rep rest 0

/-- Python's `str.replace(pat, rep)` on character lists. -/
def pyReplace (pat rep l : List Char) : List Char := pyRepAux pat rep l 0

theorem pyRepAux_skip (pat rep : List Char) :
    ∀ s r : List Char, pyRepAux pat rep (s ++ r) s.length = pyRepAux pat rep r 0
  | [], _ => rfl
  | _ :: s, r => by
    simpa [pyRepAux] using pyRepAux_skip pat rep s r

theorem pyRepAux_match (p : Char) (ps rep r : List Char) :
    pyRepAux (p :: ps) rep ((p :: ps) ++ r) 0 = rep ++ pyRepAux (p :: ps) rep r 0 := by
  have h : hasPrefB (p :: ps) ((p :: ps) ++ r) = true := hasPrefB_append _ _
  have hs : pyRepAux (p :: ps) rep (ps ++ r) ps.length = pyRepAux (p :: ps) rep r 0 :=
    pyRepAux_skip _ _ ps r
  simp only [List.cons_append] at h
  simp only [List.cons_append, pyRepAux, List.append_eq, h, if_true, List.length_cons,
    Nat.add_sub_cancel]
  rw [hs]

theorem pyRepAux_walk (pat rep : List Char) (a u : List Char)
    (h : ∀ i, i < a.length → hasPrefB pat ((a ++ u).drop i) = false) :
    pyRepAux pat rep (a ++ u) 0 = a ++ pyRepAux pat rep u 0 := by
  induction a with
  | nil => simp
  | cons c a' ih =>
    have h0 : hasPrefB pat (c :: (a' ++ u)) = false := by
      simpa using h 0 (by simp)
    simp only [List.cons_append, pyRepAux, List.append_eq, h0, Bool.false_eq_true, if_false,
      List.cons.injEq, true_and]
    exact ih (fun i hi => by
      have := h (i + 1) (by simpa using Nat.succ_lt_succ hi)
      simpa using this)

theorem pyRepAux_of_no_occ (pat rep : List Char) (u : List Char)
    (h : ∀ i, i < u.length → hasPrefB pat (u.drop i) = false) :
    pyRepAux pat rep u 0 = u := by
  have := pyRepAux_walk pat rep u [] (by simpa using h)
  simpa [pyRepAux] using this

/-- The literal part of the compiled pattern `re.compile('TABLESPACE ".*"')`
from `Connection.ddl_target` (cloneobj.py line 88): the keyword, a space and
the opening double quote.  Written as an explicit character list so the
structure is available to the lemmas below; it equals `"TABLESPACE \"".toList`. -/
def tsLit : List Char := ['T', 'A', 'B', 'L', 'E', 'S', 'P', 'A', 'C', 'E', ' ', '"']

/-- The characters of `tsLit` after its head. -/
def tsTail : List Char := ['A', 'B', 'L', 'E', 'S', 'P', 'A', 'C', 'E', ' ', '"']

/-- Index of the last `'"'` in a character list, if any.  This is where the
greedy `.*"` of the pattern `TABLESPACE ".*"` places the closing quote. -/
def lastQuote : List Char → Option Nat
  | [] => none
  | c :: rest =>
    match lastQuote rest with
    | some k => some (k + 1)
    | none => if c = '"' then some 0 else none

/--
Model of `re.sub('TABLESPACE ".*"', rep, ddl)` from `Connection.ddl_target`
(cloneobj.py lines 88-90), with Python's default regex semantics: the scanner
looks for the leftmost position where the literal `TABLESPACE "` matches, then
the greedy `.*"` extends the match to the last `'"'` of the current line
(`.` does not match a newline), every match is replaced by `rep`, and scanning
resumes right after the match.  The skip counter consumes the matched
characters so the recursion stays structural on the scanned list.
-/
def reSubAux (rep : List Char) : List Char → Nat → List Char
  | [], _ => []
  | _ :: rest, k + 1 => reSubAux rep rest k
  | c :: rest, 0 =>
    if hasPrefB tsLit (c :: rest) = true then
      match lastQuote ((rest.drop 11).takeWhile (fun x => x != '\n')) with
      | some k => rep ++ reSubAux rep rest (11 + k + 1)
      | none => c :: reSubAux rep rest 0
    else c :: reSubAux rep rest 0

/-- `re.sub('TABLESPACE ".*"', rep, l)` on character lists. -/
def reSubTS (rep l : List Char) : List Char := reSubAux rep l 0

theorem reSubAux_skip (rep : List Char) :
    ∀ s r : List Char, reSubAux rep (s ++ r) s.length = reSubAux rep r 0
  | [], _ => rfl
  | _ :: s, r => by
    simpa [reSubAux] using reSubAux_skip rep s r

theorem lastQuote_of_no_quote (u : List Char) (h : '"' ∉ u) : lastQuote u = none := by
  induction u with
  | nil => rfl
  | cons c rest ih =>
    have hc : c ≠ '"' := fun hc => h (hc ▸ List.mem_cons_self c rest)
    have hr : '"' ∉ rest := fun hr => h (List.mem_cons_of_mem c hr)
    simp [lastQuote, ih hr, hc]

theorem lastQuote_planted (X u : List Char) (hX : '"' ∉ X) (hu : '"' ∉ u) :
    lastQuote (X ++ '"' :: u) = some X.length := by
  induction X with
  | nil => simp [lastQuote, lastQuote_of_no_quote u hu]
  | cons x X' ih =>
    have hx : x ≠ '"' := fun hx => hX (hx ▸ List.mem_cons_self x X')
    have hX' : '"' ∉ X' := fun hx => hX (List.mem_cons_of_mem x hx)
    simp [lastQuote, ih hX']

theorem takeWhile_planted (X u : List Char) (hX : '\n' ∉ X) :
    (X ++ '"' :: u).takeWhile (fun x => x != '\n')
      = X ++ '"' :: u.takeWhile (fun x => x != '\n') := by
  induction X with
  | nil => simp [List.takeWhile]
  | cons x X' ih =>
    have hx : x ≠ '\n' := fun hx => hX (hx ▸ List.mem_cons_self x X')
    have hX' : '\n' ∉ X' := fun hx => hX (List.mem_cons_of_mem x hx)
    have hb : (x != '\n') = true := by simpa using hx
    simp [List.takeWhile, hb, ih hX']

theorem reSubAux_match (rep X t : List Char) (hX1 : '"' ∉ X) (hX2 : '\n' ∉ X)
    (ht : '"' ∉ t.takeWhile (fun x => x != '\n')) :
    reSubAux rep (tsLit ++ (X ++ '"' :: t)) 0 = rep ++ reSubAux rep t 0 := by
  have hpre : hasPrefB tsLit ('T' :: (tsTail ++ (X ++ '"' :: t))) = true :=
    hasPrefB_append tsLit (X ++ '"' :: t)
  have hdrop : (tsTail ++ (X ++ '"' :: t)).drop 11 = X ++ '"' :: t := rfl
  rw [show tsLit ++ (X ++ '"' :: t) = 'T' :: (tsTail ++ (X ++ '"' :: t)) from rfl]
  rw [reSubAux]
  rw [hpre, hdrop, takeWhile_planted X t hX2,
    lastQuote_planted X (t.takeWhile (fun x => x != '\n')) hX1 ht]
  simp only [if_true]
  have hs := reSubAux_skip rep (tsTail ++ (X ++ ['"'])) t
  have hassoc : (tsTail ++ (X ++ ['"'])) ++ t = tsTail ++ (X ++ '"' :: t) := by simp
  have hlen : (tsTail ++ (X ++ ['"'])).length = 11 + X.length + 1 := by
    simp [tsTail]
    omega
  rw [hassoc, hlen] at hs
  rw [hs]

theorem reSubAux_walk (rep a u : List Char)
    (h : ∀ i, i < a.length → hasPrefB tsLit ((a ++ u).drop i) = false) :
    reSubAux rep (a ++ u) 0 = a ++ reSubAux rep u 0 := by
  induction a with
  | nil => simp
  | cons c a' ih =>
    have h0 : hasPrefB tsLit (c :: (a' ++ u)) = false := by
      simpa using h 0 (by simp)
    simp only [List.cons_append, reSubAux, List.append_eq, h0, Bool.false_eq_true, if_false,
      List.cons.injEq, true_and]
    exact ih (fun i hi => by
      have := h (i + 1) (by simpa using Nat.succ_lt_succ hi)
      simpa using this)

theorem reSubAux_of_no_occ (rep u : List Char)
    (h : ∀ i, i < u.length → hasPrefB tsLit (u.drop i) = false) :
    reSubAux rep u 0 = u := by
  have := reSubAux_walk rep u [] (by simpa using h)
  simpa [reSubAux] using this

/-- The option dictionary of a `DBObject` (cloneobj.py line 120): defaults are
`{'tablespace': None, 'truncate': False, 'create_if_not_exists': False}`. -/
structure Opts where
  tablespace : Option (List Char)
  truncate : Bool
  create_if_not_exists : Bool
deriving DecidableEq

/-- A caller-supplied partial option dictionary: keys that are present
override the defaults when the dictionaries are merged (cloneobj.py
lines 120-122). -/
structure OptsPart where
  tablespace : Option (Option (List Char)) := none
  truncate : Option Bool := none
  create_if_not_exists : Option Bool := none
deriving DecidableEq

/-- The state of a `DBObject` (cloneobj.py lines 114-122): owner and name are
stored lower-cased (or `None`), the type is stored exactly as given. -/
structure DBObject where
  owner : Option (List Char)
  name : Option (List Char)
  type : List Char
  opts : Opts
deriving DecidableEq

/-- `DBObject.__init__` (cloneobj.py lines 115-122): lower-cases `owner` and
`name` when they are not `None`, stores `type` unchanged, and merges the
caller-supplied option keys over the defaults
(`dict(self.opts.items() + opts.items())` keeps the caller's value for every
key the caller supplies). -/
def dbObjectInit (name owner : Option (List Char)) (ty : List Char)
    (opts : Option OptsPart) : DBObject :=
  { owner := owner.map lower
    name := name.map lower
    type := ty
    opts :=
      match opts with
      | none => { tablespace := none, truncate := false, create_if_not_exists := false }
      | some p =>
        { tablespace := p.tablespace.getD none
          truncate := p.truncate.getD false
          create_if_not_exists := p.create_if_not_exists.getD false } }

/-- The text `TABLESPACE "<ts>"`. -/
def tsClause (ts : List Char) : List Char := tsLit ++ ts ++ ['"']

/-- The replacement text used by the tablespace remap of
`Connection.ddl_target` (cloneobj.py lines 89-90): the clause
`TABLESPACE "<tablespace>"` when the target object carries a tablespace
option, the empty string otherwise. -/
def tsRep (o : DBObject) : List Char :=
  match o.opts.tablespace with
  | some ts => tsClause ts
  | none => []

/-- The search string `' {} "{}"."{}"'.format(from_obj.type,
from_obj.owner.upper(), from_obj.name.upper())` of `Connection.ddl_target`
(cloneobj.py line 84). -/
def qualPat (ty ow nm : List Char) : List Char :=
  ' ' :: (ty ++ (' ' :: '"' :: (upper ow ++ ('"' :: '.' :: '"' :: (upper nm ++ ['"'])))))

/-- The replacement string `' {} "{}"'.format(to_obj.type,
to_obj.name.upper())` of `Connection.ddl_target` (cloneobj.py line 85):
the target owner is omitted. -/
def unqualPat (ty nm : List Char) : List Char :=
  ' ' :: (ty ++ (' ' :: '"' :: (upper nm ++ ['"'])))

/-- `Connection.ddl_target` (cloneobj.py lines 82-92): first the literal
`str.replace` removing the schema qualification, then the regex substitution
remapping (or stripping) every `TABLESPACE ".*"` match.  Python dereferences
`from_obj.owner.upper()`, `from_obj.name.upper()` and `to_obj.name.upper()`,
so an unset owner or name raises `AttributeError`; this is modelled by
returning `none`. -/
def ddl_target (ddl : List Char) (from_obj to_obj : DBObject) : Option (List Char) :=
  match from_obj.owner, from_obj.name, to_obj.name with
  | some fo, some fn, some tn =>
    some (reSubTS (tsRep to_obj)
      (pyReplace (qualPat from_obj.type fo fn) (unqualPat to_obj.type tn) ddl))
  | _, _, _ => none

/-- The state of a `Connection` (cloneobj.py lines 34-39): the connection
string, the `cx_Oracle` connection and cursor handles (abstracted as natural
numbers), and the `active` flag.  `conn` and `cursor` start as `None`. -/
structure Conn where
  connection_string : List Char
  conn : Option Nat
  cursor : Option Nat
  active : Bool
deriving DecidableEq

/-- `Connection.__init__` (cloneobj.py lines 35-39). -/
def connInit (cs : List Char) : Conn :=
  { connection_string := cs, conn := none, cursor := none, active := false }

/-- `Connection.connect` (cloneobj.py lines 45-49): when the endpoint is not
active, install a fresh connection and cursor (the handles the driver would
return are passed in) and set `active`; otherwise do nothing. -/
def Conn.connect (c : Conn) (hConn hCur : Nat) : Conn :=
  if c.active then c
  else { c with conn := some hConn, cursor := some hCur, active := true }

/-- `Connection.close` (cloneobj.py lines 51-55): when the endpoint is active,
close the cursor and connection and clear `active`; the `conn` and `cursor`
attributes keep their (now closed) handles.  Otherwise do nothing. -/
def Conn.close (c : Conn) : Conn :=
  if c.active then { c with active := false } else c

/-- The `params` argument of `Connection.execute` (cloneobj.py line 100):
`None`, a dict, or any other value such as a list or tuple of values. -/
inductive Params where
  | pnone
  | pdict (d : List (List Char × List Char))
  | pseq (vs : List (List Char))
deriving DecidableEq

/-- What one `Connection.execute` call does: the statement handed to the
cursor, the bind parameters handed to the cursor (if any), and whether the
log line printed the parameter mapping. -/
structure ExecCall where
  query : List Char
  bound : Option (List (List Char × List Char))
  loggedWithParams : Bool
deriving DecidableEq

/-- `Connection.execute` (cloneobj.py lines 100-106): only when
`isinstance(params, dict)` holds are the parameters logged and passed to
`cursor.execute`; in every other case — including a list or tuple of values —
the query is executed with no parameters at all.  The function is total:
no branch raises. -/
def executeModel (q : List Char) (p : Params) : ExecCall :=
  match p with
  | Params.pdict d => { query := q, bound := some d, loggedWithParams := true }
  | _ => { query := q, bound := none, loggedWithParams := false }

/-- `Cloner.set_owner` (cloneobj.py lines 162-166): when the object's owner is
unset, adopt the session identity fetched by
`select lower(user) from dual` at the connected endpoint. -/
def set_owner (obj : DBObject) (sessionUser : List Char) : DBObject :=
  match obj.owner with
  | none => { obj with owner := some sessionUser }
  | some _ => obj

/-- The identity test of `Cloner.__init__` (cloneobj.py lines 145-148):
same connection string, same name, same owner, same type. -/
def identicalCheck (from_cs to_cs : List Char) (a b : DBObject) : Bool :=
  decide (from_cs = to_cs) && decide (a.name = b.name) &&
    decide (a.owner = b.owner) && decide (a.type = b.type)

/-- The object-type literal `'TABLE'` from cloneobj.py line 136. -/
def TABLE : List Char := "TABLE".toList

/-- The errors `Cloner.__init__` can raise (cloneobj.py lines 136-149). -/
inductive InitErr where
  | unsupportedType
  | missingSourceName
  | identicalObjects
deriving DecidableEq

/-- The state built by a successful `Cloner.__init__`
(cloneobj.py lines 129-134): `select` starts as `None`. -/
structure Cloner where
  from_cs : List Char
  to_cs : List Char
  from_obj : DBObject
  to_obj : DBObject
  sel : Option (List Char)
deriving DecidableEq

/-- `Cloner.__init__` (cloneobj.py lines 129-149), with the two endpoints
represented by their connection strings: reject any non-`'TABLE'` type,
reject a missing source name, default the target name to the source name,
and reject a pair that coincides on connection string, name, owner and
type. -/
def clonerInit (from_cs to_cs : List Char) (from_obj to_obj : DBObject) :
    Except InitErr Cloner :=
  if from_obj.type ≠ TABLE ∨ to_obj.type ≠ TABLE then
    Except.error InitErr.unsupportedType
  else if from_obj.name = none then
    Except.error InitErr.missingSourceName
  else
    let to2 : DBObject :=
      if to_obj.name = none then { to_obj with name := from_obj.name } else to_obj
    if identicalCheck from_cs to_cs from_obj to2 = true then
      Except.error InitErr.identicalObjects
    else
      Except.ok { from_cs := from_cs, to_cs := to_cs, from_obj := from_obj,
                  to_obj := to2, sel := none }

/-- `BULK_ROWS = 100` (cloneobj.py line 32). -/
def BULK_ROWS : Nat := 100

/-- The sequence of batches handed to `bulk_insert` by the transfer loop of
`Cloner.clone` (cloneobj.py lines 209-220): rows are appended to the current
batch one by one, a full batch of `BULK_ROWS` rows is submitted and the batch
is reset, and after the source cursor is exhausted the remaining (possibly
empty) batch is always submitted once more.  `acc` and `i` are the loop
variables `rows` and `i`; the loop maintains `i = acc.length`. -/
def bulkLoop {α : Type} (rows : List α) (acc : List α) (i : Nat) : List (List α) :=
  match rows with
  | [] => [acc]
  | r :: rest =>
    if i + 1 = BULK_ROWS then (acc ++ [r]) :: bulkLoop rest [] 0
    else bulkLoop rest (acc ++ [r]) (i + 1)

/-- Observable actions of `Cloner.clone` at the two endpoints, in the order
the code performs them.  `insertBatch b` is one `cursor.executemany` call on
the prepared insert with batch `b` (cloneobj.py line 200); `emptyNoop` is the
`'Empty set - nothing to insert'` branch of `bulk_insert`
(cloneobj.py lines 205-207), which reports zero rows and does not touch the
cursor. -/
inductive Ev (α : Type) where
  | ddlExec (ddl : List Char)
  | truncStmt
  | selectStmt
  | insertBatch (batch : List α)
  | emptyNoop
  | commitCall
deriving DecidableEq

/-- One call `bulk_insert(rows, total_rows)` (cloneobj.py lines 198-207):
a non-empty batch goes to `cursor.executemany`, an empty one is a no-op. -/
def bulkEv {α : Type} (b : List α) : Ev α :=
  if b.isEmpty then Ev.emptyNoop else Ev.insertBatch b

/-- The row count a `bulk_insert` call reports (its return value,
`cursor.rowcount` for a non-empty batch — one insert per submitted row —
and `0` on the empty no-op path, cloneobj.py lines 204 and 207). -/
def reported {α : Type} : Ev α → Nat
  | Ev.insertBatch b => b.length
  | _ => 0

/-- Fatal outcomes of `Cloner.clone` modelled here: the
`'Create object ... at ...'` exception (cloneobj.py line 180), and the
`AttributeError` Python would raise inside `ddl_target` if an owner or name
were still unset. -/
inductive CloneErr where
  | targetObjectMissing
  | attrError
deriving DecidableEq

/-- The tail of a successful `Cloner.clone` after the existence check
(cloneobj.py lines 182-221): optional truncate at the target, execution of
the selection query at the source, the batched transfer, and exactly one
commit at the target. -/
def tailRun {α : Type} (to_obj : DBObject) (rows : List α) : List (Ev α) :=
  (if to_obj.opts.truncate then [Ev.truncStmt] else []) ++
    Ev.selectStmt :: ((bulkLoop rows [] 0).map bulkEv ++ [Ev.commitCall])

/-- `Cloner.clone` (cloneobj.py lines 168-221) as a trace of endpoint
actions plus an optional fatal error.  `uF`/`uT` are the session identities
`connect` would adopt for an unset owner, `targetEx` is the answer of
`to_db.object_exists(to_obj)`, `srcDdl` is the DDL text the source endpoint
returns, and `rows` is the row sequence produced by the selection query.
When the target object is missing, either the translated DDL is executed
first (`create_if_not_exists`), or the run fails before any statement —
in particular before the selection query — is executed. -/
def cloneRun {α : Type} (from_obj to_obj : DBObject) (uF uT : List Char)
    (targetEx : Bool) (srcDdl : List Char) (rows : List α) :
    List (Ev α) × Option CloneErr :=
  let fo := set_owner from_obj uF
  let tg := set_owner to_obj uT
  if targetEx then
    (tailRun tg rows, none)
  else if tg.opts.create_if_not_exists then
    let fo2 : DBObject := { fo with opts := { fo.opts with tablespace := tg.opts.tablespace } }
    match ddl_target srcDdl fo2 tg with
    | some d => (Ev.ddlExec d :: tailRun tg rows, none)
    | none => ([], some CloneErr.attrError)
  else
    ([], some CloneErr.targetObjectMissing)

/-- Invariant of the transfer loop: starting from a partial batch `acc` with
`i = acc.length < BULK_ROWS`, the submitted batches cover exactly the
accumulated and remaining rows and each batch holds at most
`BULK_ROWS` rows. -/
theorem bulkLoop_spec {α : Type} :
    ∀ (rows acc : List α), acc.length < BULK_ROWS →
      ((bulkLoop rows acc acc.length).map List.length).sum = acc.length + rows.length ∧
      ∀ b ∈ bulkLoop rows acc acc.length, b.length ≤ BULK_ROWS
  | [], acc, h => by
    refine ⟨by simp [bulkLoop], ?_⟩
    intro b hb
    simp [bulkLoop] at hb
    subst hb
    exact Nat.le_of_lt h
  | r :: rest, acc, h => by
    have hlen : (acc ++ [r]).length = acc.length + 1 := by simp
    by_cases hfull : acc.length + 1 = BULK_ROWS
    · have ihx := bulkLoop_spec rest ([] : List α) (by simp [BULK_ROWS])
      simp only [List.length_nil] at ihx
      rw [show bulkLoop (r :: rest) acc acc.length
            = (acc ++ [r]) :: bulkLoop rest [] 0 from by
          simp [bulkLoop, hfull]]
      constructor
      · simp only [List.map_cons, List.sum_cons, hlen, ihx.1]
        simp
        omega
      · intro b hb
        rcases List.mem_cons.mp hb with hb | hb
        · subst hb
          rw [hlen, hfull]
        · exact ihx.2 b hb
    · have hlt : (acc ++ [r]).length < BULK_ROWS := by
        rw [hlen]
        omega
      have ihx := bulkLoop_spec rest (acc ++ [r]) hlt
      rw [hlen] at ihx
      rw [show bulkLoop (r :: rest) acc acc.length
            = bulkLoop rest (acc ++ [r]) (acc.length + 1) from by
          simp [bulkLoop, hfull]]
      refine ⟨?_, ihx.2⟩
      rw [ihx.1]
      simp
      omega

/-- C1: for every source row sequence of `N` rows, the transfer loop of
`Cloner.clone` submits batches of at most `BULK_ROWS = 100` rows, the row
counts reported by the `bulk_insert` submissions sum to `N`, and for `N = 0`
the single submission is the empty no-op that reports zero rows and performs
no insert. -/
theorem c1_batch_accounting {α : Type} (rows : List α) :
    (∀ b ∈ bulkLoop rows ([] : List α) 0, b.length ≤ BULK_ROWS) ∧
    (((bulkLoop rows ([] : List α) 0).map bulkEv).map reported).sum = rows.length ∧
    (rows = [] →
      (bulkLoop rows ([] : List α) 0).map bulkEv = [Ev.emptyNoop] ∧
      reported (Ev.emptyNoop : Ev α) = 0) := by
  have hs := bulkLoop_spec rows ([] : List α) (by simp [BULK_ROWS])
  simp only [List.length_nil] at hs
  refine ⟨hs.2, ?_, ?_⟩
  · have hmap : ((bulkLoop rows ([] : List α) 0).map bulkEv).map reported
        = (bulkLoop rows ([] : List α) 0).map List.length := by
      rw [List.map_map]
      apply List.map_congr_left
      intro b _
      cases b with
      | nil => simp [bulkEv, reported]
      | cons x xs => simp [bulkEv, reported]
    rw [hmap, hs.1]
    simp
  · rintro rfl
    exact ⟨by simp [bulkLoop, bulkEv], rfl⟩

theorem c1_batch_accounting_witness :
    ((bulkLoop ([] : List Nat) ([] : List Nat) 0).map bulkEv = [Ev.emptyNoop] ∧
      reported (Ev.emptyNoop : Ev Nat) = 0) ∧
    (((bulkLoop (List.range 5) ([] : List Nat) 0).map bulkEv).map reported).sum = 5 :=
  ⟨(c1_batch_accounting ([] : List Nat)).2.2 rfl,
   by simpa using (c1_batch_accounting (List.range 5)).2.1⟩

/-- A concrete source descriptor used by the end-to-end scenarios:
`TABLE src.t` with default options. -/
def srcObjD : DBObject :=
  { owner := some ("src".toList), name := some ("t".toList), type := TABLE,
    opts := { tablespace := none, truncate := false, create_if_not_exists := false } }

/-- A concrete target descriptor used by the end-to-end scenarios:
`TABLE tgt.t2` with default options. -/
def tgtObjD : DBObject :=
  { owner := some ("tgt".toList), name := some ("t2".toList), type := TABLE,
    opts := { tablespace := none, truncate := false, create_if_not_exists := false } }

/-- C2: with an existing target and a source yielding exactly 250 rows, the
clone run performs exactly three bulk-insert submissions of sizes 100, 100
and 50, in that order, followed by exactly one commit at the target. -/
theorem c2_scenario_d :
    cloneRun srcObjD tgtObjD ("u".toList) ("u".toList) true []
        (List.replicate 250 (0 : Nat))
      = ([Ev.selectStmt, Ev.insertBatch (List.replicate 100 (0 : Nat)),
          Ev.insertBatch (List.replicate 100 (0 : Nat)),
          Ev.insertBatch (List.replicate 50 (0 : Nat)), Ev.commitCall], none) ∧
    ((cloneRun srcObjD tgtObjD ("u".toList) ("u".toList) true []
        (List.replicate 250 (0 : Nat))).1.count Ev.commitCall = 1) := by
  constructor
  · decide
  · decide

/-- C6: when the target object does not exist and `create_if_not_exists` is
off, `Cloner.clone` fails with the Target-Object-Missing error immediately:
no statement at all — in particular not the selection query — is executed,
so no row is read from the source. -/
theorem c6_target_missing_fails_early {α : Type} (from_obj to_obj : DBObject)
    (uF uT srcDdl : List Char) (rows : List α)
    (h : to_obj.opts.create_if_not_exists = false) :
    cloneRun from_obj to_obj uF uT false srcDdl rows
      = ([], some CloneErr.targetObjectMissing) := by
  have hopts : (set_owner to_obj uT).opts = to_obj.opts := by
    cases hob : to_obj.owner <;> simp [set_owner, hob]
  simp [cloneRun, hopts, h]

theorem c6_target_missing_fails_early_witness :
    cloneRun srcObjD tgtObjD ("u".toList) ("u".toList) false [] ([] : List Nat)
      = ([], some CloneErr.targetObjectMissing) :=
  c6_target_missing_fails_early srcObjD tgtObjD ("u".toList) ("u".toList) [] [] rfl

/-- C7: `Connection.connect` is idempotent — a second `connect` on an active
endpoint changes nothing, leaving connection and cursor handles as they are —
and `Connection.close` is idempotent. -/
theorem c7_connect_close_idempotent (c : Conn) (h1 h2 h3 h4 : Nat) :
    Conn.connect (Conn.connect c h1 h2) h3 h4 = Conn.connect c h1 h2 ∧
    Conn.close (Conn.close c) = Conn.close c ∧
    (c.active = true → Conn.connect c h1 h2 = c) ∧
    (c.active = false → Conn.close c = c) := by
  cases hc : c.active <;> simp [Conn.connect, Conn.close, hc]

theorem c7_connect_close_idempotent_witness :
    Conn.connect (Conn.connect (connInit ("db".toList)) 1 2) 3 4
        = Conn.connect (connInit ("db".toList)) 1 2 ∧
    Conn.close (connInit ("db".toList)) = connInit ("db".toList) :=
  ⟨(c7_connect_close_idempotent (connInit ("db".toList)) 1 2 3 4).1,
   (c7_connect_close_idempotent (connInit ("db".toList)) 1 2 3 4).2.2.2 rfl⟩

/-- C8: a `Connection.execute` call whose `params` is neither `None` nor a
dict (for instance a list of values) silently discards the parameters: the
call is indistinguishable from an unparameterized one, nothing is bound and
the log line carries no parameter mapping. -/
theorem c8_non_dict_params_discarded (q : List Char) (vs : List (List Char)) :
    executeModel q (Params.pseq vs) = executeModel q Params.pnone ∧
    (executeModel q (Params.pseq vs)).bound = none ∧
    (executeModel q (Params.pseq vs)).loggedWithParams = false :=
  ⟨rfl, rfl, rfl⟩

/-- C9: `DBObject.__init__` lower-cases owner and name but stores the type
exactly as given, and `Cloner.__init__` compares the type with the literal
`'TABLE'` case-sensitively, so a descriptor built with type `'table'` is
rejected with the Unsupported-Object-Type error whatever the other
descriptor is. -/
theorem c9_type_case_sensitive (nm ow : Option (List Char)) (opts : Option OptsPart)
    (cs1 cs2 : List Char) (t : DBObject) :
    (dbObjectInit nm ow ("table".toList) opts).type = "table".toList ∧
    (dbObjectInit nm ow ("table".toList) opts).owner = ow.map lower ∧
    (dbObjectInit nm ow ("table".toList) opts).name = nm.map lower ∧
    clonerInit cs1 cs2 (dbObjectInit nm ow ("table".toList) opts) t
      = Except.error InitErr.unsupportedType := by
  refine ⟨rfl, rfl, rfl, ?_⟩
  have hne : (dbObjectInit nm ow ("table".toList) opts).type ≠ TABLE := by
    simp only [dbObjectInit]
    decide
  rw [clonerInit, if_pos (Or.inl hne)]

/-- C10: the Identical-Source-And-Target test runs only in `Cloner.__init__`,
before owner resolution: a pair on the same connection string with the same
name and type whose source owner is unset constructs fine, even though after
`set_owner` resolves the unset owner to the same session identity the two
descriptors satisfy the very identity test the constructor used. -/
theorem c10_identity_check_pre_resolution (cs nm u : List Char) (o1 o2 : Opts) :
    (∃ cl, clonerInit cs cs
        { owner := none, name := some nm, type := TABLE, opts := o1 }
        { owner := some u, name := some nm, type := TABLE, opts := o2 }
      = Except.ok cl) ∧
    identicalCheck cs cs
      (set_owner { owner := none, name := some nm, type := TABLE, opts := o1 } u)
      (set_owner { owner := some u, name := some nm, type := TABLE, opts := o2 } u)
      = true := by
  constructor
  · refine ⟨{ from_cs := cs, to_cs := cs,
              from_obj := { owner := none, name := some nm, type := TABLE, opts := o1 },
              to_obj := { owner := some u, name := some nm, type := TABLE, opts := o2 },
              sel := none }, ?_⟩
    simp [clonerInit, identicalCheck]
  · simp [set_owner, identicalCheck]

/-- C5: for type-`'TABLE'` descriptor pairs with a source name, construction
succeeds exactly when the pair is not identical — identity meaning equal
connection strings, equal owners and equal names after the target name has
defaulted to the source name — and fails with Identical-Source-And-Target
when it is. -/
theorem c5_construction (from_cs to_cs : List Char) (f t : DBObject) (n : List Char)
    (hft : f.type = TABLE) (htt : t.type = TABLE) (hfn : f.name = some n) :
    (¬ (from_cs = to_cs ∧ n = t.name.getD n ∧ f.owner = t.owner) →
      ∃ cl, clonerInit from_cs to_cs f t = Except.ok cl) ∧
    ((from_cs = to_cs ∧ n = t.name.getD n ∧ f.owner = t.owner) →
      clonerInit from_cs to_cs f t = Except.error InitErr.identicalObjects) := by
  obtain ⟨fow, fnm, fty, fopts⟩ := f
  obtain ⟨tow, tnm, tty, topts⟩ := t
  change fty = TABLE at hft
  change tty = TABLE at htt
  change fnm = some n at hfn
  subst hft
  subst htt
  subst hfn
  cases tnm with
  | none =>
    have hrun : clonerInit from_cs to_cs (DBObject.mk fow (some n) TABLE fopts)
          (DBObject.mk tow none TABLE topts)
        = if identicalCheck from_cs to_cs (DBObject.mk fow (some n) TABLE fopts)
              (DBObject.mk tow (some n) TABLE topts) = true
          then Except.error InitErr.identicalObjects
          else Except.ok ⟨from_cs, to_cs, DBObject.mk fow (some n) TABLE fopts,
                          DBObject.mk tow (some n) TABLE topts, none⟩ := by
      simp [clonerInit]
    have hc : identicalCheck from_cs to_cs (DBObject.mk fow (some n) TABLE fopts)
          (DBObject.mk tow (some n) TABLE topts) = true
        ↔ (from_cs = to_cs ∧ fow = tow) := by
      simp [identicalCheck]
    constructor
    · intro hne
      have hne' : ¬ (from_cs = to_cs ∧ fow = tow) := by
        intro hh
        exact hne ⟨hh.1, by simp, hh.2⟩
      exact ⟨_, by rw [hrun, if_neg (fun hh => hne' (hc.mp hh))]⟩
    · intro hy
      rw [hrun, if_pos (hc.mpr ⟨hy.1, hy.2.2⟩)]
  | some m =>
    have hrun : clonerInit from_cs to_cs (DBObject.mk fow (some n) TABLE fopts)
          (DBObject.mk tow (some m) TABLE topts)
        = if identicalCheck from_cs to_cs (DBObject.mk fow (some n) TABLE fopts)
              (DBObject.mk tow (some m) TABLE topts) = true
          then Except.error InitErr.identicalObjects
          else Except.ok ⟨from_cs, to_cs, DBObject.mk fow (some n) TABLE fopts,
                          DBObject.mk tow (some m) TABLE topts, none⟩ := by
      simp [clonerInit]
    have hc : identicalCheck from_cs to_cs (DBObject.mk fow (some n) TABLE fopts)
          (DBObject.mk tow (some m) TABLE topts) = true
        ↔ (from_cs = to_cs ∧ n = m ∧ fow = tow) := by
      simp [identicalCheck]
      tauto
    constructor
    · intro hne
      have hne' : ¬ (from_cs = to_cs ∧ n = m ∧ fow = tow) := by
        intro hh
        exact hne ⟨hh.1, by simpa using hh.2.1, hh.2.2⟩
      exact ⟨_, by rw [hrun, if_neg (fun hh => hne' (hc.mp hh))]⟩
    · intro hy
      rw [hrun, if_pos (hc.mpr ⟨hy.1, by simpa using hy.2.1, hy.2.2⟩)]

theorem c5_construction_witness :
    (∃ cl, clonerInit ("db1".toList) ("db2".toList) srcObjD tgtObjD = Except.ok cl) ∧
    clonerInit ("db1".toList) ("db1".toList) srcObjD srcObjD
      = Except.error InitErr.identicalObjects :=
  ⟨(c5_construction ("db1".toList) ("db2".toList) srcObjD tgtObjD ("t".toList)
      rfl rfl rfl).1 (by decide),
   (c5_construction ("db1".toList) ("db1".toList) srcObjD srcObjD ("t".toList)
      rfl rfl rfl).2 (by decide)⟩

theorem ddl_target_eq (ddl : List Char) (f t : DBObject) (fo fn tn : List Char)
    (hfo : f.owner = some fo) (hfn : f.name = some fn) (htn : t.name = some tn) :
    ddl_target ddl f t
      = some (reSubTS (tsRep t)
          (pyReplace (qualPat f.type fo fn) (unqualPat t.type tn) ddl)) := by
  simp [ddl_target, hfo, hfn, htn]

theorem pyRepAux_match_pat (pat rep r : List Char) (hne : pat ≠ []) :
    pyRepAux pat rep (pat ++ r) 0 = rep ++ pyRepAux pat rep r 0 := by
  cases pat with
  | nil => exact absurd rfl hne
  | cons p ps => exact pyRepAux_match p ps rep r

/-- A target descriptor carrying the tablespace option `"Y"`. -/
def tgtObjY : DBObject :=
  { owner := some ("tgt".toList), name := some ("t".toList), type := TABLE,
    opts := { tablespace := some ("Y".toList), truncate := false,
              create_if_not_exists := false } }

/-- A target descriptor with no tablespace option. -/
def tgtObjN : DBObject :=
  { owner := some ("tgt".toList), name := some ("t".toList), type := TABLE,
    opts := { tablespace := none, truncate := false, create_if_not_exists := false } }

/-- C3 counterexample: on an input holding two `TABLESPACE "X"` clauses on the
same line, the greedy pattern `TABLESPACE ".*"` matches from the first clause
through the last double quote of the line, so both clauses collapse into a
single match and the translated output holds exactly one `TABLESPACE "Y"`
clause — not two as the claim states for every such input. -/
theorem c3_tablespace_counterexample :
    countOcc ("TABLESPACE \"X\"".toList)
        ("TABLESPACE \"X\" and TABLESPACE \"X\"".toList) = 2 ∧
    ddl_target ("TABLESPACE \"X\" and TABLESPACE \"X\"".toList) srcObjD tgtObjY
      = some ("TABLESPACE \"Y\"".toList) ∧
    countOcc ("TABLESPACE \"Y\"".toList)
        ((ddl_target ("TABLESPACE \"X\" and TABLESPACE \"X\"".toList)
            srcObjD tgtObjY).getD []) = 1 := by
  refine ⟨by decide, by decide, by decide⟩

/-- C3 (amended): the tablespace remap does rewrite every `TABLESPACE "X"`
clause — replaced by `TABLESPACE "Y"` when the target carries a tablespace
option, stripped when it does not — provided the clauses sit on separate
lines and each clause's closing quote is the last double quote before the
next line break (the greedy `.*` makes a same-line second clause or a later
same-line quote part of the first match).  The hypotheses say exactly that:
the identifier-rewrite pattern does not occur, no further `TABLESPACE "`
literal occurs outside the two clauses, `X` holds no quote and no newline,
and no quote follows the second clause on its line. -/
theorem c3_tablespace_remap_by_lines (a b c X fo fn tn : List Char) (f t : DBObject)
    (hfo : f.owner = some fo) (hfn : f.name = some fn) (htn : t.name = some tn)
    (hX1 : '"' ∉ X) (hX2 : '\n' ∉ X)
    (hq : ∀ i, i < (a ++ (tsClause X ++ ('\n' :: (b ++ (tsClause X ++ c))))).length →
        hasPrefB (qualPat f.type fo fn)
          ((a ++ (tsClause X ++ ('\n' :: (b ++ (tsClause X ++ c))))).drop i) = false)
    (ha : ∀ i, i < a.length →
        hasPrefB tsLit
          ((a ++ (tsClause X ++ ('\n' :: (b ++ (tsClause X ++ c))))).drop i) = false)
    (hb : ∀ i, i < b.length + 1 →
        hasPrefB tsLit ((('\n' :: b) ++ (tsClause X ++ c)).drop i) = false)
    (hc1 : '"' ∉ c.takeWhile (fun x => x != '\n'))
    (hc2 : ∀ i, i < c.length → hasPrefB tsLit (c.drop i) = false) :
    ddl_target (a ++ (tsClause X ++ ('\n' :: (b ++ (tsClause X ++ c))))) f t
      = some (a ++ (tsRep t ++ ('\n' :: (b ++ (tsRep t ++ c))))) := by
  rw [ddl_target_eq _ f t fo fn tn hfo hfn htn]
  rw [show pyReplace (qualPat f.type fo fn) (unqualPat t.type tn)
        (a ++ (tsClause X ++ ('\n' :: (b ++ (tsClause X ++ c)))))
      = a ++ (tsClause X ++ ('\n' :: (b ++ (tsClause X ++ c)))) from
    pyRepAux_of_no_occ _ _ _ hq]
  unfold reSubTS
  rw [reSubAux_walk (tsRep t) a _ ha]
  have hcl : ∀ z : List Char, tsClause X ++ z = tsLit ++ (X ++ '"' :: z) := by
    intro z
    simp [tsClause, List.append_assoc]
  rw [hcl]
  rw [reSubAux_match (tsRep t) X _ hX1 hX2 (by simp [List.takeWhile])]
  rw [show ('\n' :: (b ++ (tsClause X ++ c))) = (('\n' :: b) ++ (tsClause X ++ c)) from
    by simp]
  rw [reSubAux_walk (tsRep t) ('\n' :: b) _ hb]
  rw [hcl]
  rw [reSubAux_match (tsRep t) X c hX1 hX2 hc1]
  rw [reSubAux_of_no_occ (tsRep t) c hc2]
  simp

theorem c3_tablespace_remap_by_lines_witness :
    ddl_target ("ALPHA TABLESPACE \"X\"\nBETA TABLESPACE \"X\" GAMMA".toList)
        srcObjD tgtObjY
      = some ("ALPHA TABLESPACE \"Y\"\nBETA TABLESPACE \"Y\" GAMMA".toList) ∧
    countOcc ("TABLESPACE \"Y\"".toList)
      ("ALPHA TABLESPACE \"Y\"\nBETA TABLESPACE \"Y\" GAMMA".toList) = 2 ∧
    countOcc ("TABLESPACE \"X\"".toList)
      ("ALPHA TABLESPACE \"Y\"\nBETA TABLESPACE \"Y\" GAMMA".toList) = 0 ∧
    ddl_target ("ALPHA TABLESPACE \"X\"\nBETA TABLESPACE \"X\" GAMMA".toList)
        srcObjD tgtObjN
      = some ("ALPHA \nBETA  GAMMA".toList) := by
  have e1 : "ALPHA TABLESPACE \"X\"\nBETA TABLESPACE \"X\" GAMMA".toList
      = "ALPHA ".toList ++ (tsClause ("X".toList)
          ++ ('\n' :: ("BETA ".toList ++ (tsClause ("X".toList) ++ " GAMMA".toList)))) := by
    decide
  refine ⟨?_, by decide, by decide, ?_⟩
  · have h := c3_tablespace_remap_by_lines ("ALPHA ".toList) ("BETA ".toList)
      (" GAMMA".toList) ("X".toList) ("src".toList) ("t".toList) ("t".toList)
      srcObjD tgtObjY rfl rfl rfl (by decide) (by decide) (by decide) (by decide)
      (by decide) (by decide) (by decide)
    have e2 : "ALPHA ".toList ++ (tsRep tgtObjY
          ++ ('\n' :: ("BETA ".toList ++ (tsRep tgtObjY ++ " GAMMA".toList))))
        = "ALPHA TABLESPACE \"Y\"\nBETA TABLESPACE \"Y\" GAMMA".toList := by decide
    rw [e1, h, e2]
  · have h := c3_tablespace_remap_by_lines ("ALPHA ".toList) ("BETA ".toList)
      (" GAMMA".toList) ("X".toList) ("src".toList) ("t".toList) ("t".toList)
      srcObjD tgtObjN rfl rfl rfl (by decide) (by decide) (by decide) (by decide)
      (by decide) (by decide) (by decide)
    have e2 : "ALPHA ".toList ++ (tsRep tgtObjN
          ++ ('\n' :: ("BETA ".toList ++ (tsRep tgtObjN ++ " GAMMA".toList))))
        = "ALPHA \nBETA  GAMMA".toList := by decide
    rw [e1, h, e2]

/-- The target descriptor of end-to-end scenario B: name `t`, tablespace
option `"TS2"`, creation allowed, owner not yet resolved. -/
def tgtObjB : DBObject :=
  { owner := none, name := some ("t".toList), type := TABLE,
    opts := { tablespace := some ("TS2".toList), truncate := false,
              create_if_not_exists := true } }

/-- C4: on a DDL text holding the schema-qualified form
`<TYPE> "<SOURCE_OWNER>"."<SOURCE_NAME>"` (type keyword `TABLE` and both
identifiers upper-cased, as the source metadata service renders them) exactly
once, `ddl_target` replaces it by the unqualified form `<TYPE> "<TARGET_NAME>"`
with the target owner omitted, and then applies the tablespace remap to the
rewritten text. -/
theorem c4_identifier_rewrite (a b fo fn tn : List Char) (f t : DBObject)
    (hfo : f.owner = some fo) (hfn : f.name = some fn) (htn : t.name = some tn)
    (hft : f.type = TABLE) (htt : t.type = TABLE)
    (hq1 : ∀ i, i < a.length →
        hasPrefB (qualPat TABLE fo fn)
          ((a ++ (qualPat TABLE fo fn ++ b)).drop i) = false)
    (hq2 : ∀ i, i < b.length → hasPrefB (qualPat TABLE fo fn) (b.drop i) = false) :
    ddl_target (a ++ (qualPat TABLE fo fn ++ b)) f t
      = some (reSubTS (tsRep t) (a ++ (unqualPat TABLE tn ++ b))) := by
  rw [ddl_target_eq _ f t fo fn tn hfo hfn htn, hft, htt]
  have hstep : pyReplace (qualPat TABLE fo fn) (unqualPat TABLE tn)
        (a ++ (qualPat TABLE fo fn ++ b))
      = a ++ (unqualPat TABLE tn ++ b) := by
    unfold pyReplace
    rw [pyRepAux_walk _ _ a _ hq1]
    rw [pyRepAux_match_pat _ _ b (by simp [qualPat])]
    rw [pyRepAux_of_no_occ _ _ b hq2]
  rw [hstep]

theorem c4_identifier_rewrite_witness :
    ddl_target ("CREATE TABLE \"SRC\".\"T\" (\"C\" NUMBER) TABLESPACE \"TS1\"".toList)
        srcObjD tgtObjB
      = some ("CREATE TABLE \"T\" (\"C\" NUMBER) TABLESPACE \"TS2\"".toList) := by
  have h := c4_identifier_rewrite ("CREATE".toList)
      (" (\"C\" NUMBER) TABLESPACE \"TS1\"".toList) ("src".toList) ("t".toList)
      ("t".toList) srcObjD tgtObjB rfl rfl rfl rfl rfl (by decide) (by decide)
  have e1 : "CREATE TABLE \"SRC\".\"T\" (\"C\" NUMBER) TABLESPACE \"TS1\"".toList
      = "CREATE".toList ++ (qualPat TABLE ("src".toList) ("t".toList)
          ++ " (\"C\" NUMBER) TABLESPACE \"TS1\"".toList) := by decide
  have e2 : reSubTS (tsRep tgtObjB)
        ("CREATE".toList ++ (unqualPat TABLE ("t".toList)
          ++ " (\"C\" NUMBER) TABLESPACE \"TS1\"".toList))
      = "CREATE TABLE \"T\" (\"C\" NUMBER) TABLESPACE \"TS2\"".toList := by decide
  rw [e1, h, e2]

end CloneObj
